import Mathlib

/-!
Verification of the Gujarati news translator backend
(src/backend/app/main.py).

Python strings are modelled as lists of characters; the module-level
services (Translator, Summarizer, URLExtractor) become Lean functions,
with the outcomes of network and library calls supplied explicitly as
environment values, and Python exceptions modelled with Except.
-/

namespace GujaratiNews

/-- Python strings, modelled as lists of characters. -/
abbrev Str := List Char

/-- The whitespace characters recognised by Python's str.strip, str.split
and the regex class used in main.py. -/
def pyWhitespace (c : Char) : Bool :=
  c = ' ' || c = '\t' || c = '\n' || c = '\r' || c = '\x0b' || c = '\x0c'

/-- Python str.strip(): drop whitespace from both ends. -/
def strip (s : Str) : Str :=
  ((s.dropWhile pyWhitespace).reverse.dropWhile pyWhitespace).reverse

/-- Character-wise lowercasing, modelling Python str.lower on the ASCII
characters that occur in the phrases compared in main.py. -/
def lower (s : Str) : Str := s.map Char.toLower

/-- Helper for splitRuns: inRun is true while we are inside a maximal run
of separator characters, acc is the current segment reversed. -/
def splitRunsAux (p : Char → Bool) : List Char → Bool → List Char → List (List Char)
  | [], _, acc => [acc.reverse]
  | c :: cs, inRun, acc =>
    if p c then
      if inRun then splitRunsAux p cs true acc
      else acc.reverse :: splitRunsAux p cs true []
    else splitRunsAux p cs false (c :: acc)

/-- Splitting at maximal runs of separator characters, as re.split does
with a one-or-more character-class pattern. -/
def splitRuns (p : Char → Bool) (s : Str) : List Str :=
  splitRunsAux p s false []

/-- Splitting at every single separator character, as re.split does with
a bare character-class pattern (empty segments are kept). -/
def splitEvery (p : Char → Bool) : Str → List Str
  | [] => [[]]
  | c :: cs =>
    if p c then [] :: splitEvery p cs
    else
      match splitEvery p cs with
      | s :: rest => (c :: s) :: rest
      | [] => [[c]]

/-- Python str.split() with no argument: split on whitespace runs and
discard empty fields. -/
def splitWs (s : Str) : List Str :=
  (splitRuns pyWhitespace s).filter (fun w => !w.isEmpty)

/-- Joining a list of strings with a separator, as Python str.join. -/
def joinSep (sep : Str) : List Str → Str
  | [] => []
  | [s] => s
  | s :: rest => s ++ sep ++ joinSep sep rest

/-- The whitespace normalisation performed by the summarizer:
re.sub of one-or-more whitespace to a single space, applied to the
stripped text (main.py line 121). -/
def normalize (s : Str) : Str :=
  joinSep [' '] (splitRuns pyWhitespace (strip s))

/-- Index of the first occurrence of pat as a contiguous substring. -/
def findSub (pat : Str) : Str → Option Nat
  | [] => if pat.isEmpty then some 0 else none
  | c :: cs =>
    if pat.isPrefixOf (c :: cs) then some 0
    else (findSub pat cs).map (· + 1)

/-- Python's substring test, s1 in s2. -/
def isSubstring (pat s : Str) : Bool :=
  (findSub pat s).isSome

/- ------------------------------------------------------------------ -/
/- Translator (main.py lines 22-103)                                   -/
/- ------------------------------------------------------------------ -/

/-- The character transliteration table Translator.gujarati_to_english
(main.py lines 34-45). -/
def gujarati_to_english : List (Char × Str) :=
  [('અ', "a".data), ('આ', "aa".data), ('ઇ', "i".data), ('ઈ', "ii".data),
   ('ઉ', "u".data), ('ઊ', "uu".data),
   ('એ', "e".data), ('ઐ', "ai".data), ('ઓ', "o".data), ('ઔ', "au".data),
   ('ક', "ka".data), ('ખ', "kha".data), ('ગ', "ga".data), ('ઘ', "gha".data),
   ('ઙ', "nga".data),
   ('ચ', "cha".data), ('છ', "chha".data), ('જ', "ja".data), ('ઝ', "jha".data),
   ('ઞ', "nja".data),
   ('ટ', "ta".data), ('ઠ', "tha".data), ('ડ', "da".data), ('ઢ', "dha".data),
   ('ણ', "na".data),
   ('ત', "ta".data), ('થ', "tha".data), ('દ', "da".data), ('ધ', "dha".data),
   ('ન', "na".data),
   ('પ', "pa".data), ('ફ', "pha".data), ('બ', "ba".data), ('ભ', "bha".data),
   ('મ', "ma".data),
   ('ય', "ya".data), ('ર', "ra".data), ('લ', "la".data), ('વ', "va".data),
   ('શ', "sha".data), ('ષ', "sha".data), ('સ', "sa".data), ('હ', "ha".data),
   ('।', ".".data), ('?', "?".data), ('!', "!".data), (',', ",".data),
   (';', ";".data), (':', ":".data)]

/-- The word dictionary Translator.word_translations (main.py lines 48-59). -/
def word_translations : List (Str × Str) :=
  [("સમાચાર".data, "news".data), ("ખબર".data, "news".data),
   ("આજ".data, "today".data), ("આજે".data, "today".data),
   ("ગુજરાત".data, "Gujarat".data), ("ભારત".data, "India".data),
   ("અહીં".data, "here".data), ("ત્યાં".data, "there".data),
   ("લોકો".data, "people".data), ("જનતા".data, "public".data),
   ("સરકાર".data, "government".data),
   ("મુખ્યમંત્રી".data, "Chief Minister".data),
   ("પ્રધાનમંત્રી".data, "Prime Minister".data),
   ("વર્ષ".data, "year".data), ("મહિનો".data, "month".data),
   ("દિવસ".data, "day".data), ("સમય".data, "time".data),
   ("પૈસા".data, "money".data), ("રૂપિયા".data, "rupees".data),
   ("હજાર".data, "thousand".data),
   ("લાખ".data, "lakh".data), ("કરોડ".data, "crore".data),
   ("અબજ".data, "billion".data),
   ("શહેર".data, "city".data), ("ગામ".data, "village".data),
   ("રાજ્ય".data, "state".data),
   ("કોર્ટ".data, "court".data), ("ન્યાય".data, "justice".data),
   ("કાયદો".data, "law".data),
   ("પોલીસ".data, "police".data), ("ચૂંટણી".data, "election".data),
   ("પાર્ટી".data, "party".data)]

/-- Transliterating one character: the table entry when present,
else the character itself (main.py lines 76-80). -/
def translitChar (c : Char) : Str :=
  match List.lookup c gujarati_to_english with
  | some t => t
  | none => [c]

/-- Translating one whitespace-delimited word: the dictionary entry when
present, else character-by-character transliteration (lines 69-81). -/
def translateWord (w : Str) : Str :=
  match List.lookup w word_translations with
  | some t => t
  | none => w.flatMap translitChar

/-- Translator._offline_translate (main.py lines 64-84). -/
def offline_translate (text : Str) : Str :=
  "[Transliterated] ".data ++ joinSep [' '] ((splitWs text).map translateWord)

/-- The ambient outcomes of the Translator's fallible calls:
online is none when the GoogleTranslator failed to initialise,
some none when gt.translate raises, some (some r) when it returns r;
offlineFails covers the except arm around _offline_translate. -/
structure TransEnv where
  online : Option (Option Str)
  offlineFails : Bool

/-- Translator.translate (main.py lines 86-103). -/
def translate (env : TransEnv) (text : Str) : Str :=
  if (strip text).isEmpty then "No text to translate".data
  else
    match env.online with
    | some (some r) => r
    | _ =>
      if env.offlineFails then
        "Translation unavailable - showing original text: ".data ++ text
      else offline_translate text

/- ------------------------------------------------------------------ -/
/- Summarizer (main.py lines 106-185)                                  -/
/- ------------------------------------------------------------------ -/

/-- The sentence delimiters of main.py lines 124 and 297: ., !, ? and
the Gujarati danda. -/
def sentenceDelim (c : Char) : Bool :=
  c = '.' || c = '!' || c = '?' || c = '।'

/-- The qualifying sentences of the summarizer (main.py lines 124-125):
split the (already normalised) text at delimiter runs, strip each piece,
keep the non-empty ones longer than 10 characters. -/
def qualSentences (t : Str) : List Str :=
  ((splitRuns sentenceDelim t).map strip).filter
    (fun s => !s.isEmpty && decide (10 < s.length))

/-- The keyword list of main.py line 151. -/
def keywords : List Str :=
  ["સમાચાર".data, "ખબર".data, "મહત્વપૂર્ણ".data, "મુખ્ય".data, "પ્રમુખ".data,
   "સરકાર".data, "આજે".data, "news".data, "important".data, "main".data,
   "today".data]

/-- Position scoring (main.py lines 136-141). -/
def posScore (i n : Nat) : Nat :=
  if i = 0 then 3
  else if i = n - 1 then 2
  else if i < n / 3 then 1
  else 0

/-- Length scoring (main.py lines 144-148). -/
def lenScore (l : Nat) : Nat :=
  if 50 ≤ l ∧ l ≤ 200 then 2
  else if 20 ≤ l ∧ l ≤ 50 then 1
  else 0

/-- Keyword scoring: +1 for each keyword occurring in the lowercased
sentence (main.py lines 151-154). -/
def kwScore (s : Str) : Nat :=
  (keywords.filter (fun k => isSubstring k (lower s))).length

/-- The scored sentence triples (score, sentence, index) of main.py
lines 131-156. -/
def scoredSentences (ss : List Str) : List (Nat × Str × Nat) :=
  ss.enum.map (fun p => (posScore p.1 ss.length + lenScore p.2.length + kwScore p.2, p.2, p.1))

/-- The sort key of main.py line 159: score descending, then original
position ascending. -/
def scoreOrd (a b : Nat × Str × Nat) : Bool :=
  decide (b.1 < a.1) || (decide (a.1 = b.1) && decide (a.2.2 ≤ b.2.2))

/-- Ascending order on the original position, the key of line 173. -/
def posOrd (a b : Str × Nat) : Bool := decide (a.2 ≤ b.2)

/-- Stable insertion into a sorted list. -/
def insertOrd (le : α → α → Bool) (a : α) : List α → List α
  | [] => [a]
  | b :: bs => if le a b then a :: b :: bs else b :: insertOrd le a bs

/-- Stable sort by a total comparison, modelling Python list.sort with
the given key (the keys used in main.py are injective, so any correct
sort yields the list Python produces). -/
def sortOrd (le : α → α → Bool) (l : List α) : List α :=
  l.foldr (insertOrd le) []

/-- The selection loop of main.py lines 162-170: walk the score-sorted
triples, append a sentence when it still fits in the budget, and stop as
soon as three sentences have been collected. -/
def greedySelect (maxLen : Nat) : List (Nat × Str × Nat) → Nat → List (Str × Nat) → List (Str × Nat)
  | [], _, acc => acc.reverse
  | (_, s, i) :: rest, total, acc =>
    if total + s.length ≤ maxLen then
      let acc1 := (s, i) :: acc
      if 3 ≤ acc1.length then acc1.reverse
      else greedySelect maxLen rest (total + s.length) acc1
    else
      if 3 ≤ acc.length then acc.reverse
      else greedySelect maxLen rest total acc

/-- Python str.endswith(('.', '!', '?', '।')) on line 177. -/
def endsSentencePunct (s : Str) : Bool :=
  match s.getLast? with
  | some c => sentenceDelim c
  | none => false

/-- Line 177-178: append a terminal period when the joined summary does
not already end in sentence-final punctuation. -/
def addPeriod (s : Str) : Str :=
  if endsSentencePunct s then s else s ++ ['.']

/-- The try-block body of Summarizer.summarize (main.py lines 116-180). -/
def summarizeBody (text : Str) (maxLen : Nat) : Str :=
  let t := normalize text
  let ss := qualSentences t
  if ss.length ≤ 2 then
    if maxLen < t.length then t.take maxLen ++ "...".data else t
  else
    let sorted := sortOrd scoreOrd (scoredSentences ss)
    let sel := sortOrd posOrd (greedySelect maxLen sorted 0 [])
    let st := addPeriod (joinSep ". ".data (sel.map Prod.fst))
    if !st.isEmpty then st else t.take maxLen ++ "...".data

/-- Summarizer.summarize (main.py lines 112-185); fail = true is the
case in which the heuristic raises and the except arm of lines 182-185
answers with a simple truncation. -/
def summarize (fail : Bool) (text : Str) (maxLen : Nat) : Str :=
  if (strip text).isEmpty then "No content to summarize".data
  else if fail then
    if maxLen < text.length then text.take maxLen ++ "...".data else text
  else summarizeBody text maxLen

/- ------------------------------------------------------------------ -/
/- URLExtractor (main.py lines 188-403)                                -/
/- ------------------------------------------------------------------ -/

/-- The nuclear removal phrases of main.py lines 283-294. -/
def nuclearPhrases : List Str :=
  ["Our Divisions Copyright".data, "DB Corp ltd".data,
   "All Rights Reserved".data, "DNPA Code of Ethics".data,
   "This website follows".data, "Our Divisions".data,
   "Copyright ©".data, "2024-25".data, "2023-24".data, "2025-26".data]

/-- The bad-word list of main.py line 313. -/
def badWords : List Str :=
  ["copyright".data, "corp".data, "division".data, "reserved".data,
   "ethics".data, "dnpa".data]

/-- The per-sentence filter of main.py lines 300-320, applied to an
already stripped sentence: reject on any nuclear phrase (case
insensitive substring) and on a bad-word share above 20 percent.
The float comparison count/len > 0.2 is modelled as the exact rational
comparison 5*count > len. -/
def sentenceKeep (s : Str) : Bool :=
  !(nuclearPhrases.any (fun p => isSubstring (lower p) (lower s))) &&
  (let ws := splitWs (lower s)
   let bad := (ws.filter (fun w => decide (w ∈ badWords))).length
   !(decide (0 < ws.length) && decide (ws.length < 5 * bad)))

/-- The sentences that survive the filter of main.py lines 296-320:
split at every single delimiter, strip, drop the ones shorter than 15
characters, then apply sentenceKeep. -/
def cleanSentences (text : Str) : List Str :=
  ((splitEvery sentenceDelim text).map strip).filter
    (fun s => decide (15 ≤ s.length) && sentenceKeep s)

/-- One re.sub of a case-insensitive lazy pattern a.*?b (with an
optional trailing literal dot when dotOpt is set) against the empty
replacement, as used on main.py lines 326-328: find the first start of
a, the earliest b after it, delete through the end of b (and one
following dot when allowed), and continue after the deleted span. -/
def removeBetweenFuel (a b : Str) (dotOpt : Bool) : Nat → Str → Str
  | 0, s => s
  | fuel + 1, s =>
    let ls := lower s
    match findSub (lower a) ls with
    | none => s
    | some i =>
      match findSub (lower b) (ls.drop (i + a.length)) with
      | none => s
      | some m =>
        let e := i + a.length + m + b.length
        let e := if dotOpt && (s.drop e).head? = some '.' then e + 1 else e
        s.take i ++ removeBetweenFuel a b dotOpt fuel (s.drop e)

/-- Wrapper supplying enough fuel: every replacement removes at least
one character, so the length of the text bounds the number of matches. -/
def removeBetween (a b : Str) (dotOpt : Bool) (s : Str) : Str :=
  removeBetweenFuel a b dotOpt (s.length + 1) s

/-- re.sub of one-or-more whitespace to a single space (line 331,
before the strip). -/
def collapseWs (s : Str) : Str :=
  joinSep [' '] (splitRuns pyWhitespace s)

/-- re.sub collapsing runs of two or more dots to a single dot
(line 332); the flag records whether the previous character was a dot. -/
def collapseDotsAux : Bool → Str → Str
  | _, [] => []
  | prevDot, c :: rest =>
    if c = '.' then
      if prevDot then collapseDotsAux true rest
      else '.' :: collapseDotsAux true rest
    else c :: collapseDotsAux false rest

/-- The dot-run collapse of main.py line 332. -/
def collapseDots (s : Str) : Str := collapseDotsAux false s

/-- The fixed rejection message of main.py line 335. -/
def noContentMsg : Str :=
  "No meaningful content found after aggressive cleaning".data

/-- The cleaned text built by URLExtractor.super_clean_content before
its final length gate (main.py lines 280-332). -/
def superCleanCore (text : Str) : Str :=
  let r := joinSep ". ".data (cleanSentences text)
  let r := removeBetween "Our Divisions".data "Ethics".data true r
  let r := removeBetween "Copyright".data "Reserved".data false r
  let r := removeBetween "DB Corp".data "Ethics".data false r
  let r := strip (collapseWs r)
  collapseDots r

/-- URLExtractor.super_clean_content (main.py lines 275-335). -/
def super_clean_content (text : Str) : Str :=
  if text.isEmpty then []
  else
    let r := superCleanCore text
    if 50 < r.length then r else noContentMsg

/-- URLExtractor.is_divya_bhaskar (main.py lines 189-191). -/
def is_divya_bhaskar (url : Str) : Bool :=
  isSubstring "divyabhaskar.co.in".data (lower url) ||
  isSubstring "divyabhaskar".data (lower url)

/-- The outcomes of the extractor's network and library calls:
dbContent is the content_text assembled by the Divya Bhaskar scraping
strategies (error: the fetch raised), npResult is newspaper's
article.text (error: download or parse raised), bsResult is the
main_content text of the BeautifulSoup fallback (error: the request
raised). -/
structure ExtractEnv where
  dbContent : Except Str Str
  npResult : Except Str Str
  bsResult : Except Str Str

/-- The BeautifulSoup fallback of URLExtractor.extract
(main.py lines 360-403). -/
def extractBS (env : ExtractEnv) : Str :=
  match env.bsResult with
  | .ok mc =>
    let cleaned := super_clean_content mc
    if !cleaned.isEmpty then cleaned.take 5000
    else "No meaningful content found".data
  | .error e => "Extraction failed: ".data ++ e

/-- URLExtractor.extract (main.py lines 337-403); the Divya Bhaskar
branch is extract_divya_bhaskar_content (lines 193-273), whose scraped
content_text is supplied by the environment. -/
def extract (url : Str) (env : ExtractEnv) : Str :=
  if is_divya_bhaskar url then
    match env.dbContent with
    | .ok c => super_clean_content c
    | .error e => "Failed to extract content from Divya Bhaskar: ".data ++ e
  else
    match env.npResult with
    | .ok t =>
      if !t.isEmpty then
        let cleaned := super_clean_content t
        if !cleaned.isEmpty then cleaned
        else "No meaningful content extracted".data
      else extractBS env
    | .error _ => extractBS env

/- ------------------------------------------------------------------ -/
/- HTTP endpoints (main.py lines 460-491)                              -/
/- ------------------------------------------------------------------ -/

/-- A raised fastapi.HTTPException. -/
structure HTTPError where
  status : Nat
  detail : Str

/-- str(e) for an HTTPException: "status: detail". -/
def strHTTPError (e : HTTPError) : Str :=
  (Nat.repr e.status).data ++ ": ".data ++ e.detail

/-- The try-block body of the POST /translate handler (main.py lines
462-472): empty text raises HTTPException(400), otherwise the
translation response is produced. -/
def translateTryBody (env : TransEnv) (text : Str) : Except HTTPError Str :=
  if (strip text).isEmpty then .error ⟨400, "Text cannot be empty".data⟩
  else .ok (translate env text)

/-- The POST /translate handler translate_text (main.py lines 460-475):
the blanket except arm catches every Exception, the HTTPException(400)
included, and re-raises it as a 500. The result is the HTTP status and
response detail the client observes. -/
def translate_text (env : TransEnv) (text : Str) : Nat × Str :=
  match translateTryBody env text with
  | .ok t => (200, t)
  | .error e => (500, strHTTPError e)

/-- The try-block body of the POST /summarize handler (lines 479-488). -/
def summarizeTryBody (fail : Bool) (text : Str) (maxLen : Nat) : Except HTTPError Str :=
  if (strip text).isEmpty then .error ⟨400, "Text cannot be empty".data⟩
  else .ok (summarize fail text maxLen)

/-- The POST /summarize handler summarize_text (main.py lines 477-491),
with the same blanket except arm turning the 400 into a 500. -/
def summarize_text (fail : Bool) (text : Str) (maxLen : Nat) : Nat × Str :=
  match summarizeTryBody fail text maxLen with
  | .ok t => (200, t)
  | .error e => (500, strHTTPError e)

/- ------------------------------------------------------------------ -/
/- Spec-side comparand for claim C8                                    -/
/- ------------------------------------------------------------------ -/

/-- The sentence selection as claim C8 words it (spec section 4.3):
walk the score-sorted sentences in order, take a sentence whenever the
combined character length stays within the budget, and stop taking
sentences once three are selected. -/
def specSelect (maxLen : Nat) : List (Nat × Str × Nat) → Nat → Nat → List (Str × Nat)
  | [], _, _ => []
  | (_, s, i) :: rest, total, count =>
    if 3 ≤ count then []
    else if total + s.length ≤ maxLen then
      (s, i) :: specSelect maxLen rest (total + s.length) (count + 1)
    else specSelect maxLen rest total count

/-- The multi-sentence summary as claim C8 words it: greedy selection by
(score desc, position asc), re-sorted into original order, joined with
". ", with a terminal period appended when sentence-final punctuation is
missing. -/
def summarizeSpecC8 (text : Str) (maxLen : Nat) : Str :=
  let ss := qualSentences (normalize text)
  let sorted := sortOrd scoreOrd (scoredSentences ss)
  addPeriod (joinSep ". ".data
    ((sortOrd posOrd (specSelect maxLen sorted 0 0)).map Prod.fst))

/- ------------------------------------------------------------------ -/
/- Helper lemmas                                                       -/
/- ------------------------------------------------------------------ -/

theorem dropWhile_all_neg {p : Char → Bool} {l : Str}
    (h : ∀ c ∈ l, p c = false) : l.dropWhile p = l := by
  cases l with
  | nil => rfl
  | cons c cs =>
    rw [List.dropWhile_cons, h c (List.mem_cons_self c cs)]
    simp

theorem strip_all_neg {l : Str}
    (h : ∀ c ∈ l, pyWhitespace c = false) : strip l = l := by
  unfold strip
  rw [dropWhile_all_neg h, dropWhile_all_neg, List.reverse_reverse]
  intro c hc
  exact h c (List.mem_reverse.mp hc)

theorem splitRunsAux_all_neg {p : Char → Bool} {l : Str}
    (h : ∀ c ∈ l, p c = false) :
    ∀ b acc, splitRunsAux p l b acc = [acc.reverse ++ l] := by
  induction l with
  | nil => intro b acc; simp [splitRunsAux]
  | cons c cs ih =>
    intro b acc
    have hc : p c = false := h c (List.mem_cons_self c cs)
    have hcs : ∀ d ∈ cs, p d = false := fun d hd => h d (List.mem_cons_of_mem c hd)
    simp [splitRunsAux, hc, ih hcs]

theorem splitRuns_all_neg {p : Char → Bool} {l : Str}
    (h : ∀ c ∈ l, p c = false) : splitRuns p l = [l] := by
  simpa using splitRunsAux_all_neg h false []

theorem splitEvery_all_neg {p : Char → Bool} {l : Str}
    (h : ∀ c ∈ l, p c = false) : splitEvery p l = [l] := by
  induction l with
  | nil => rfl
  | cons c cs ih =>
    have hc : p c = false := h c (List.mem_cons_self c cs)
    have hcs : ∀ d ∈ cs, p d = false := fun d hd => h d (List.mem_cons_of_mem c hd)
    simp [splitEvery, hc, ih hcs]

theorem findSub_replicate_none {pat : Str} {c : Char}
    (hnil : pat ≠ []) (hne : pat.head? ≠ some c) :
    ∀ n, findSub pat (List.replicate n c) = none := by
  intro n
  induction n with
  | zero =>
    cases pat with
    | nil => exact absurd rfl hnil
    | cons d tl => rfl
  | succ m ih =>
    obtain ⟨d, tl, rfl⟩ : ∃ d tl, pat = d :: tl := by
      cases pat with
      | nil => exact absurd rfl hnil
      | cons d tl => exact ⟨d, tl, rfl⟩
    have hdc : (d == c) = false := by
      apply beq_eq_false_iff_ne.mpr
      intro hdc1
      exact hne (by simp [hdc1])
    rw [List.replicate_succ]
    simp [findSub, List.isPrefixOf, hdc, ih]

theorem isSubstring_replicate_false {pat : Str} {c : Char}
    (hnil : pat ≠ []) (hne : pat.head? ≠ some c) (n : Nat) :
    isSubstring pat (List.replicate n c) = false := by
  simp [isSubstring, findSub_replicate_none hnil hne]

/-- The replicated character used by the long-input counterexamples. -/
def repX (n : Nat) : Str := List.replicate n 'x'

theorem repX_no_ws (n : Nat) : ∀ c ∈ repX n, pyWhitespace c = false := by
  intro c hc
  rw [List.eq_of_mem_replicate hc]
  rfl

theorem repX_no_delim (n : Nat) : ∀ c ∈ repX n, sentenceDelim c = false := by
  intro c hc
  rw [List.eq_of_mem_replicate hc]
  rfl

theorem lower_repX (n : Nat) : lower (repX n) = repX n := by
  simp [lower, repX, List.map_replicate]

theorem strip_repX (n : Nat) : strip (repX n) = repX n :=
  strip_all_neg (repX_no_ws n)

theorem repX_ne_nil {n : Nat} (h : 0 < n) : repX n ≠ [] := by
  cases n with
  | zero => omega
  | succ m => rw [repX, List.replicate_succ]; intro hc; cases hc

theorem repX_isEmpty_false {n : Nat} (h : 0 < n) : (repX n).isEmpty = false := by
  cases hrx : repX n with
  | nil => exact absurd hrx (repX_ne_nil h)
  | cons a l => rfl

theorem repX_length (n : Nat) : (repX n).length = n := by
  simp [repX]

theorem sentenceKeep_repX {n : Nat} (h : 15 ≤ n) :
    sentenceKeep (repX n) = true := by
  have hnuc : nuclearPhrases.any
      (fun p => isSubstring (lower p) (lower (repX n))) = false := by
    rw [List.any_eq_false]
    intro p hp
    rw [lower_repX]
    have hp2 : lower p ≠ [] ∧ (lower p).head? ≠ some 'x' := by
      fin_cases hp <;> exact ⟨by decide, by decide⟩
    rw [repX]
    simp [isSubstring_replicate_false hp2.1 hp2.2 n]
  have hws : splitWs (lower (repX n)) = [repX n] := by
    rw [lower_repX]
    unfold splitWs
    rw [splitRuns_all_neg (repX_no_ws n)]
    simp [List.filter, repX_isEmpty_false (by omega : 0 < n)]
  have hbad : decide (repX n ∈ badWords) = false := by
    rw [decide_eq_false_iff_not]
    intro hmem
    have hlen : (repX n).length ∈ badWords.map List.length :=
      List.mem_map_of_mem List.length hmem
    rw [repX_length] at hlen
    simp [badWords] at hlen
    omega
  simp only [sentenceKeep, hnuc, hws]
  simp [hbad]

theorem cleanSentences_repX {n : Nat} (h : 15 ≤ n) :
    cleanSentences (repX n) = [repX n] := by
  unfold cleanSentences
  rw [splitEvery_all_neg (repX_no_delim n)]
  simp [strip_repX, sentenceKeep_repX h, repX_length, h]

theorem removeBetween_none {a b : Str} {dot : Bool} {s : Str}
    (hfind : findSub (lower a) (lower s) = none) :
    removeBetween a b dot s = s := by
  simp only [removeBetween, removeBetweenFuel, hfind]

theorem findSub_lower_repX_none {pat : Str} (hnil : pat ≠ [])
    (hne : pat.head? ≠ some 'x') (n : Nat) :
    findSub pat (lower (repX n)) = none := by
  rw [lower_repX, repX]
  exact findSub_replicate_none hnil hne n

theorem collapseDotsAux_no_dot {l : Str} (h : '.' ∉ l) :
    ∀ b, collapseDotsAux b l = l := by
  induction l with
  | nil => intro b; rfl
  | cons c cs ih =>
    intro b
    have hc : ¬c = '.' := fun hc => h (hc ▸ List.mem_cons_self c cs)
    have hcs : '.' ∉ cs := fun hm => h (List.mem_cons_of_mem c hm)
    simp [collapseDotsAux, hc, ih hcs]

theorem collapseDots_no_dot {l : Str} (h : '.' ∉ l) : collapseDots l = l :=
  collapseDotsAux_no_dot h false

theorem dot_not_mem_repX (n : Nat) : '.' ∉ repX n := by
  intro hm
  have := List.eq_of_mem_replicate hm
  cases this

theorem superCleanCore_repX {n : Nat} (h : 15 ≤ n) :
    superCleanCore (repX n) = repX n := by
  have h1 : removeBetween ("Our Divisions".data) ("Ethics".data) true (repX n)
      = repX n :=
    removeBetween_none (findSub_lower_repX_none (by decide) (by decide) n)
  have h2 : removeBetween ("Copyright".data) ("Reserved".data) false (repX n)
      = repX n :=
    removeBetween_none (findSub_lower_repX_none (by decide) (by decide) n)
  have h3 : removeBetween ("DB Corp".data) ("Ethics".data) false (repX n)
      = repX n :=
    removeBetween_none (findSub_lower_repX_none (by decide) (by decide) n)
  have hcw : collapseWs (repX n) = repX n := by
    unfold collapseWs
    rw [splitRuns_all_neg (repX_no_ws n)]
    rfl
  have hj : joinSep (". ".data) [repX n] = repX n := rfl
  unfold superCleanCore
  rw [cleanSentences_repX h]
  simp only [hj, h1, h2, h3, hcw, strip_repX]
  exact collapseDots_no_dot (dot_not_mem_repX n)

/-- The length gate of super_clean_content, with the lets unfolded. -/
theorem scc_of_ne_nil {text : Str} (h : text ≠ []) :
    super_clean_content text =
      if 50 < (superCleanCore text).length then superCleanCore text
      else noContentMsg := by
  have hie : text.isEmpty = false := by
    cases text with
    | nil => exact absurd rfl h
    | cons c cs => rfl
  unfold super_clean_content
  rw [hie]
  simp

theorem super_clean_content_repX {n : Nat} (h : 50 < n) :
    super_clean_content (repX n) = repX n := by
  rw [scc_of_ne_nil (repX_ne_nil (by omega)), superCleanCore_repX (by omega),
    repX_length, if_pos h]

/- ------------------------------------------------------------------ -/
/- Claim C1                                                            -/
/- ------------------------------------------------------------------ -/

/-- Claim C1 (code bug, evaluated at the failing input): a
whitespace-only text posted to /translate or /summarize is answered
with HTTP status 500, not 400. The handler raises HTTPException(400)
inside its own try block, the blanket except-Exception arm catches it
and re-raises it as HTTPException(500, str(e)), so the client observes
a 500 even though line 464/481 plainly intends a 400. -/
theorem c1_empty_input_gets_500 :
    (translate_text ⟨none, false⟩ [' ']).1 = 500 ∧
    (summarize_text false [' '] 150).1 = 500 ∧
    (translate_text ⟨none, false⟩ [' ']).1 ≠ 400 :=
  ⟨rfl, rfl, by decide⟩

/- ------------------------------------------------------------------ -/
/- Claim C2                                                            -/
/- ------------------------------------------------------------------ -/

/-- Claim C2 counterexample: for a URL that is not Divya Bhaskar, when
the newspaper library succeeds with a 5001-character article text, the
extractor returns the cleaned text without any length cap, so the
result is 5001 characters long, refuting the claimed 5000-character
bound. -/
theorem c2_counterexample :
    is_divya_bhaskar ("http://example.com/article".data) = false ∧
    5000 < (extract ("http://example.com/article".data)
      ⟨Except.error [], Except.ok (repX 5001), Except.error []⟩).length := by
  have hdb : is_divya_bhaskar ("http://example.com/article".data) = false := by
    decide
  refine ⟨hdb, ?_⟩
  have h1 : super_clean_content (repX 5001) = repX 5001 :=
    super_clean_content_repX (by omega)
  have hie : (repX 5001).isEmpty = false := repX_isEmpty_false (by omega)
  simp [extract, hdb, h1, hie, repX_length]

/-- Claim C2 (amended): the 5000-character cap holds only on the
BeautifulSoup fallback path, i.e. when the newspaper library yields no
usable text and the fallback request succeeds; the newspaper-library
path returns its cleaned text uncapped. -/
theorem c2_amended (url : Str) (env : ExtractEnv) (mc : Str)
    (hdb : is_divya_bhaskar url = false)
    (hnp : env.npResult = Except.ok [] ∨ ∃ e, env.npResult = Except.error e)
    (hbs : env.bsResult = Except.ok mc) :
    (extract url env).length ≤ 5000 := by
  have hgoal : (extractBS env).length ≤ 5000 := by
    rw [extractBS, hbs]
    by_cases hc : (super_clean_content mc).isEmpty
    · simp [hc]
    · simp only [hc, Bool.not_false, if_true]
      rw [List.length_take]
      exact min_le_left _ _
  rcases hnp with hok | ⟨e, herr⟩
  · simp [extract, hdb, hok, hgoal]
  · simp [extract, hdb, herr, hgoal]

/-- Claim C2 witness for the amended theorem: a concrete non-matching
URL whose newspaper path yields no text and whose fallback succeeds
observes the 5000-character bound. -/
theorem c2_amended_witness :
    is_divya_bhaskar ("http://other.example/a".data) = false ∧
    (extract ("http://other.example/a".data)
      ⟨Except.error [], Except.ok [], Except.ok (repX 60)⟩).length ≤ 5000 :=
  ⟨by decide,
   c2_amended _ _ (repX 60) (by decide) (Or.inl rfl) rfl⟩

/- ------------------------------------------------------------------ -/
/- Claim C4                                                            -/
/- ------------------------------------------------------------------ -/

/-- Claim C4 counterexample: a 50-character input cleans to a
50-character result, which is not under 50 characters, yet
super_clean_content replaces it with the fixed message (the code gate
is len > 50, so a result of exactly 50 characters is rejected); and the
claimed rule also fails at the empty input, where the empty string is
returned instead of the message. -/
theorem c4_counterexample :
    (superCleanCore (repX 50)).length = 50 ∧
    super_clean_content (repX 50) = noContentMsg ∧
    super_clean_content (repX 50) ≠ superCleanCore (repX 50) ∧
    super_clean_content [] = [] ∧ ([] : Str) ≠ noContentMsg := by
  have hcore : superCleanCore (repX 50) = repX 50 := superCleanCore_repX (by omega)
  have hlen : (superCleanCore (repX 50)).length = 50 := by rw [hcore, repX_length]
  have hscc : super_clean_content (repX 50) = noContentMsg := by
    rw [scc_of_ne_nil (repX_ne_nil (by omega)), hcore, repX_length,
      if_neg (by omega)]
  refine ⟨hlen, hscc, ?_, rfl, by decide⟩
  rw [hscc, hcore]
  intro hcontra
  have := congrArg List.length hcontra
  rw [repX_length] at this
  simp [noContentMsg] at this

/-- Claim C4 (amended): for every non-empty input, the returned value
is the fixed "no meaningful content" message exactly when the cleaned
result is 50 characters or fewer, and the cleaned text is returned
precisely when it is strictly longer than 50 characters. -/
theorem c4_amended (text : Str) (h : text ≠ []) :
    ((superCleanCore text).length ≤ 50 →
      super_clean_content text = noContentMsg) ∧
    (50 < (superCleanCore text).length →
      super_clean_content text = superCleanCore text) := by
  constructor
  · intro hlen
    rw [scc_of_ne_nil h, if_neg (by omega)]
  · intro hlen
    rw [scc_of_ne_nil h, if_pos hlen]

/-- Claim C4 witness for the amended theorem, at a concrete
50-character input whose cleaned result is exactly 50 characters. -/
theorem c4_amended_witness :
    repX 50 ≠ [] ∧ (superCleanCore (repX 50)).length ≤ 50 ∧
    super_clean_content (repX 50) = noContentMsg := by
  have hlen : (superCleanCore (repX 50)).length ≤ 50 := by
    rw [superCleanCore_repX (by omega), repX_length]
  exact ⟨repX_ne_nil (by omega), hlen,
    (c4_amended (repX 50) (repX_ne_nil (by omega))).1 hlen⟩

/- ------------------------------------------------------------------ -/
/- Claim C5                                                            -/
/- ------------------------------------------------------------------ -/

/-- Claim C5 (confirmed): no sentence containing one of the fixed
copyright/legal phrases as a case-insensitive substring survives the
filter whose output super_clean_content joins, for any input text. -/
theorem c5_no_nuclear_sentence_joined (text s p : Str)
    (hs : s ∈ cleanSentences text) (hp : p ∈ nuclearPhrases) :
    isSubstring (lower p) (lower s) = false := by
  have hmem := (List.mem_filter.mp hs).2
  rw [Bool.and_eq_true] at hmem
  have hkeep := hmem.2
  unfold sentenceKeep at hkeep
  rw [Bool.and_eq_true] at hkeep
  have hnot := hkeep.1
  rw [Bool.not_eq_true'] at hnot
  have hfalse := List.any_eq_false.mp hnot p hp
  cases hval : isSubstring (lower p) (lower s) with
  | false => rfl
  | true => exact absurd hval hfalse

/-- Claim C5 witness: a concrete clean sentence survives the filter and
indeed contains no copyright phrase. -/
theorem c5_witness :
    ("Copyright ©".data ∈ nuclearPhrases) ∧
    ("This is a perfectly ordinary clean sentence".data ∈
      cleanSentences ("This is a perfectly ordinary clean sentence".data)) ∧
    isSubstring (lower ("Copyright ©".data))
      (lower ("This is a perfectly ordinary clean sentence".data)) = false :=
  ⟨by decide, by decide,
   c5_no_nuclear_sentence_joined
     ("This is a perfectly ordinary clean sentence".data)
     ("This is a perfectly ordinary clean sentence".data)
     ("Copyright ©".data) (by decide) (by decide)⟩

/- ------------------------------------------------------------------ -/
/- Claim C10                                                           -/
/- ------------------------------------------------------------------ -/

/-- Claim C10 (confirmed): super_clean_content returns the empty string
exactly on the empty input, and on any non-empty input it returns
either its cleaned text of length strictly greater than 50 or exactly
the fixed message, never a non-empty cleaned text of 50 or fewer
characters. -/
theorem c10_scc_range (text : Str) :
    (super_clean_content text = [] ↔ text = []) ∧
    (text ≠ [] →
      super_clean_content text = noContentMsg ∨
      (super_clean_content text = superCleanCore text ∧
        50 < (super_clean_content text).length)) := by
  by_cases htext : text = []
  · subst htext
    exact ⟨⟨fun _ => rfl, fun _ => rfl⟩, fun h => absurd rfl h⟩
  · by_cases hlen : 50 < (superCleanCore text).length
    · have hval : super_clean_content text = superCleanCore text := by
        rw [scc_of_ne_nil htext, if_pos hlen]
      constructor
      · constructor
        · intro hnil
          rw [hval] at hnil
          rw [hnil] at hlen
          simp at hlen
        · intro hnil; exact absurd hnil htext
      · intro _
        exact Or.inr ⟨hval, by rw [hval]; exact hlen⟩
    · have hval : super_clean_content text = noContentMsg := by
        rw [scc_of_ne_nil htext, if_neg hlen]
      constructor
      · constructor
        · intro hnil
          rw [hval] at hnil
          exact absurd hnil.symm (by decide)
        · intro hnil; exact absurd hnil htext
      · intro _; exact Or.inl hval

/-- Claim C10 witness: at a concrete non-empty input the dichotomy
holds with the cleaned-text arm. -/
theorem c10_witness :
    repX 60 ≠ [] ∧
    (super_clean_content (repX 60) = noContentMsg ∨
      (super_clean_content (repX 60) = superCleanCore (repX 60) ∧
        50 < (super_clean_content (repX 60)).length)) :=
  ⟨repX_ne_nil (by omega),
   (c10_scc_range (repX 60)).2 (repX_ne_nil (by omega))⟩

/- ------------------------------------------------------------------ -/
/- Summarizer helper lemmas                                            -/
/- ------------------------------------------------------------------ -/

theorem isEmpty_false_of_ne_nil {l : Str} (h : l ≠ []) : l.isEmpty = false := by
  cases l with
  | nil => exact absurd rfl h
  | cons a t => rfl

theorem normalize_of_strip_nil {text : Str} (h : strip text = []) :
    normalize text = [] := by
  unfold normalize
  rw [h]
  rfl

theorem summarize_false_body {text : Str} (maxLen : Nat)
    (hne : (strip text).isEmpty = false) :
    summarize false text maxLen = summarizeBody text maxLen := by
  unfold summarize
  rw [hne]
  rfl

/-- With at most two qualifying sentences, the heuristic answers with
the truncated normalised text (main.py lines 127-128). -/
theorem summarize_le2_eq (text : Str) (maxLen : Nat)
    (hne : (strip text).isEmpty = false)
    (hq : (qualSentences (normalize text)).length ≤ 2) :
    summarize false text maxLen =
      if maxLen < (normalize text).length then
        (normalize text).take maxLen ++ "...".data
      else normalize text := by
  rw [summarize_false_body maxLen hne]
  simp only [summarizeBody]
  rw [if_pos hq]

theorem strip_ne_nil_of_summary_hyp {text : Str}
    (h : 0 < (normalize text).length) : (strip text).isEmpty = false := by
  cases hs : strip text with
  | nil =>
    exfalso
    rw [normalize_of_strip_nil hs] at h
    simp at h
  | cons c cs => rfl

theorem qualSentences_pos_strip {text : Str}
    (h : 0 < (qualSentences (normalize text)).length) :
    (strip text).isEmpty = false := by
  cases hs : strip text with
  | nil =>
    exfalso
    rw [normalize_of_strip_nil hs] at h
    have h0 : qualSentences ([] : Str) = [] := rfl
    rw [h0] at h
    simp at h
  | cons c cs => rfl

theorem addPeriod_ne_nil (s : Str) : addPeriod s ≠ [] := by
  unfold addPeriod
  by_cases h : endsSentencePunct s = true
  · rw [if_pos h]
    intro hnil
    rw [hnil] at h
    exact absurd h (by decide)
  · rw [if_neg h]
    simp

theorem specSelect_of_full (maxLen : Nat) :
    ∀ (l : List (Nat × Str × Nat)) (total count : Nat), 3 ≤ count →
      specSelect maxLen l total count = [] := by
  intro l total count h
  cases l with
  | nil => rfl
  | cons a rest =>
    obtain ⟨sc, s, i⟩ := a
    simp [specSelect, h]

/-- The source selection loop of main.py lines 162-170 computes exactly
the greedy selection of the spec: it only differs by breaking right
after the third append, which the cap reproduces. -/
theorem greedySelect_eq_spec (maxLen : Nat) :
    ∀ (l : List (Nat × Str × Nat)) (total : Nat) (acc : List (Str × Nat)),
      acc.length < 3 →
      greedySelect maxLen l total acc =
        acc.reverse ++ specSelect maxLen l total acc.length := by
  intro l
  induction l with
  | nil =>
    intro total acc h
    simp [greedySelect, specSelect]
  | cons a rest ih =>
    intro total acc h
    obtain ⟨sc, s, i⟩ := a
    have hnotfull : ¬3 ≤ acc.length := by omega
    by_cases hfit : total + s.length ≤ maxLen
    · by_cases hfull : 3 ≤ acc.length + 1
      · simp only [greedySelect, specSelect, List.length_cons, hfit, hfull,
          hnotfull, if_true, if_false, ite_true, ite_false]
        rw [specSelect_of_full maxLen rest (total + s.length) (acc.length + 1) hfull]
        simp
      · simp only [greedySelect, specSelect, List.length_cons, hfit, hfull,
          hnotfull, if_true, if_false, ite_true, ite_false]
        rw [ih (total + s.length) ((s, i) :: acc) (by simp; omega)]
        simp
    · simp only [greedySelect, specSelect, hfit, hnotfull, if_true, if_false,
        ite_true, ite_false]
      exact ih total acc h

/-- With more than two qualifying sentences, summarize computes the
spec-side description of claim C8. -/
theorem summarize_gt2_eq (text : Str) (maxLen : Nat)
    (hq : 2 < (qualSentences (normalize text)).length) :
    summarize false text maxLen = summarizeSpecC8 text maxLen := by
  have hne : (strip text).isEmpty = false :=
    qualSentences_pos_strip (by omega)
  have hsel := greedySelect_eq_spec maxLen
    (sortOrd scoreOrd (scoredSentences (qualSentences (normalize text)))) 0 []
    (by simp)
  rw [List.reverse_nil, List.nil_append] at hsel
  simp only [List.length_nil] at hsel
  rw [summarize_false_body maxLen hne]
  simp only [summarizeBody, summarizeSpecC8]
  rw [if_neg (by omega : ¬(qualSentences (normalize text)).length ≤ 2)]
  rw [hsel]
  rw [isEmpty_false_of_ne_nil (addPeriod_ne_nil _)]
  simp only [Bool.not_false, eq_self_iff_true, ite_true]

/- ------------------------------------------------------------------ -/
/- Claim C3                                                            -/
/- ------------------------------------------------------------------ -/

/-- Claim C3 counterexample: with at most two qualifying sentences the
summarizer does not return the input text itself but its
whitespace-normalised form ("ab  cd" comes back as "ab cd", which is
neither the text nor its truncation), and a whitespace-only input is
answered with the fixed "No content to summarize" message. -/
theorem c3_counterexample :
    summarize false ("ab  cd".data) 150 = "ab cd".data ∧
    "ab cd".data ≠ "ab  cd".data ∧
    "ab cd".data ≠ ("ab  cd".data).take 150 ++ "...".data ∧
    summarize false ("   ".data) 150 = "No content to summarize".data :=
  ⟨by decide, by decide, by decide, by decide⟩

/-- Claim C3 (amended): for every non-blank input text whose
whitespace-normalised form splits into at most 2 qualifying sentences,
summarize returns that normalised text unmodified, or the normalised
text truncated to max_length characters with an ellipsis appended when
it is longer than max_length, rather than a score-selected subset. -/
theorem c3_amended (text : Str) (maxLen : Nat)
    (hne : (strip text).isEmpty = false)
    (hq : (qualSentences (normalize text)).length ≤ 2) :
    summarize false text maxLen =
      if maxLen < (normalize text).length then
        (normalize text).take maxLen ++ "...".data
      else normalize text :=
  summarize_le2_eq text maxLen hne hq

/-- Claim C3 witness for the amended theorem at a concrete two-sentence
input. -/
theorem c3_amended_witness :
    (strip ("Short one.  And   another bit".data)).isEmpty = false ∧
    (qualSentences (normalize ("Short one.  And   another bit".data))).length ≤ 2 ∧
    summarize false ("Short one.  And   another bit".data) 150 =
      (if 150 < (normalize ("Short one.  And   another bit".data)).length then
        (normalize ("Short one.  And   another bit".data)).take 150 ++ "...".data
      else normalize ("Short one.  And   another bit".data)) :=
  ⟨by decide, by decide, c3_amended _ 150 (by decide) (by decide)⟩

/- ------------------------------------------------------------------ -/
/- Claim C6                                                            -/
/- ------------------------------------------------------------------ -/

/-- Every entry of the word dictionary is found by lookup (the keys are
pairwise distinct). -/
theorem lookup_word_translations :
    ∀ p ∈ word_translations, List.lookup p.1 word_translations = some p.2 := by
  decide

/-- Claim C6 (confirmed): for a word that is a key of the offline
dictionary, occurring as a whitespace-delimited token of the text,
_offline_translate renders exactly the dictionary translation for that
token (not its character transliteration), and the whole result carries
the literal "[Transliterated] " tag. -/
theorem c6_dictionary_word (text k v : Str)
    (hkv : (k, v) ∈ word_translations)
    (_hk : k ∈ splitWs text) :
    offline_translate text =
      "[Transliterated] ".data ++
        joinSep [' '] ((splitWs text).map translateWord) ∧
    translateWord k = v := by
  refine ⟨rfl, ?_⟩
  have hlook : List.lookup k word_translations = some v :=
    lookup_word_translations (k, v) hkv
  unfold translateWord
  rw [hlook]

/-- Claim C6 witness at the dictionary entry for "news". -/
theorem c6_witness :
    (("સમાચાર".data, "news".data) ∈ word_translations) ∧
    ("સમાચાર".data ∈ splitWs ("સમાચાર આજે".data)) ∧
    (offline_translate ("સમાચાર આજે".data) =
      "[Transliterated] ".data ++
        joinSep [' '] ((splitWs ("સમાચાર આજે".data)).map translateWord) ∧
      translateWord ("સમાચાર".data) = "news".data) :=
  ⟨by decide, by decide,
   c6_dictionary_word ("સમાચાર આજે".data) ("સમાચાર".data) ("news".data)
     (by decide) (by decide)⟩

/- ------------------------------------------------------------------ -/
/- Claim C7                                                            -/
/- ------------------------------------------------------------------ -/

/-- Claim C7 (confirmed): translate and summarize are total functions
of their inputs and environments — every outcome is one of the
enumerated strings, never a propagated exception; when the online
translator is unavailable or raises and the offline translator raises
too, translate answers the original text behind the
"Translation unavailable" tag; and when the summarization heuristic
raises, summarize answers a truncation of the original text. -/
theorem c7_services_never_raise :
    (∀ (env : TransEnv) (text : Str),
      (strip text).isEmpty = false →
      (env.online = none ∨ env.online = some none) →
      env.offlineFails = true →
      translate env text =
        "Translation unavailable - showing original text: ".data ++ text) ∧
    (∀ (text : Str) (maxLen : Nat),
      (strip text).isEmpty = false →
      summarize true text maxLen =
        if maxLen < text.length then text.take maxLen ++ "...".data
        else text) ∧
    (∀ (env : TransEnv) (text : Str),
      translate env text = "No text to translate".data ∨
      (∃ r, env.online = some (some r) ∧ translate env text = r) ∨
      translate env text = offline_translate text ∨
      translate env text =
        "Translation unavailable - showing original text: ".data ++ text) := by
  refine ⟨?_, ?_, ?_⟩
  · intro env text hne honline hoff
    rcases honline with h | h <;> simp [translate, hne, h, hoff]
  · intro text maxLen hne
    unfold summarize
    rw [hne]
    rfl
  · intro env text
    by_cases hne : (strip text).isEmpty = true
    · left
      simp [translate, hne]
    · rcases honline : env.online with _ | maybe
      · by_cases hoff : env.offlineFails = true
        · right; right; right
          simp [translate, hne, honline, hoff]
        · right; right; left
          simp only [Bool.not_eq_true] at hoff
          simp [translate, hne, honline, hoff]
      · rcases maybe with _ | r
        · by_cases hoff : env.offlineFails = true
          · right; right; right
            simp [translate, hne, honline, hoff]
          · right; right; left
            simp only [Bool.not_eq_true] at hoff
            simp [translate, hne, honline, hoff]
        · right; left
          exact ⟨r, rfl, by simp [translate, hne, honline]⟩

/-- Claim C7 witness: the all-paths-fail translation and the failing
summarization heuristic at concrete inputs. -/
theorem c7_witness :
    (strip ("hello world".data)).isEmpty = false ∧
    translate ⟨some none, true⟩ ("hello world".data) =
      "Translation unavailable - showing original text: ".data ++
        "hello world".data ∧
    summarize true ("hello world".data) 5 =
      (if 5 < ("hello world".data).length then
        ("hello world".data).take 5 ++ "...".data
      else "hello world".data) :=
  ⟨by decide,
   c7_services_never_raise.1 ⟨some none, true⟩ ("hello world".data)
     (by decide) (Or.inr rfl) rfl,
   c7_services_never_raise.2.1 ("hello world".data) 5 (by decide)⟩

/- ------------------------------------------------------------------ -/
/- Claim C8                                                            -/
/- ------------------------------------------------------------------ -/

/-- Claim C8 (confirmed): for input with more than 2 qualifying
sentences, the summary is exactly the claim's description — at most 3
scored sentences chosen greedily in (score desc, position asc) order
under the max_length character budget, re-sorted into original text
order, joined with ". ", and given a terminal period when the result
does not already end in sentence-final punctuation. -/
theorem c8_multi_sentence_summary (text : Str) (maxLen : Nat)
    (hq : 2 < (qualSentences (normalize text)).length) :
    summarize false text maxLen = summarizeSpecC8 text maxLen :=
  summarize_gt2_eq text maxLen hq

/-- Claim C8 witness at a concrete three-sentence input. -/
theorem c8_witness :
    2 < (qualSentences (normalize
      ("Apple banana cherry. Dog elephant frog. Gentle house igloo.".data))).length ∧
    summarize false
      ("Apple banana cherry. Dog elephant frog. Gentle house igloo.".data) 150 =
    summarizeSpecC8
      ("Apple banana cherry. Dog elephant frog. Gentle house igloo.".data) 150 :=
  ⟨by decide, c8_multi_sentence_summary _ 150 (by decide)⟩

/- ------------------------------------------------------------------ -/
/- Claim C9                                                            -/
/- ------------------------------------------------------------------ -/

/-- Claim C9 (confirmed): the summarizer does not bound its output by
max_length. On the two-or-fewer-sentence path with a normalised text
longer than max_length, the output has exactly max_length + 3
characters (truncation plus ellipsis); and the multi-sentence path can
exceed max_length through its ". " separators and appended period, as
at the concrete three-sentence input with budget 34 whose summary has
38 characters. -/
theorem c9_output_exceeds_budget :
    (∀ (text : Str) (maxLen : Nat),
      (qualSentences (normalize text)).length ≤ 2 →
      maxLen < (normalize text).length →
      (summarize false text maxLen).length = maxLen + 3) ∧
    34 < (summarize false
      ("aaaaaaaaaaa. bbbbbbbbbbb. ccccccccccc.".data) 34).length := by
  constructor
  · intro text maxLen hq hlen
    have hne : (strip text).isEmpty = false :=
      strip_ne_nil_of_summary_hyp (by omega)
    rw [summarize_le2_eq text maxLen hne hq, if_pos hlen]
    rw [List.length_append, List.length_take]
    have hmin : min maxLen (normalize text).length = maxLen :=
      Nat.min_eq_left (Nat.le_of_lt hlen)
    rw [hmin]
    rfl
  · decide

/-- Claim C9 witness for the universal truncation-length part. -/
theorem c9_witness :
    (qualSentences (normalize ("abcdefghijklmnop".data))).length ≤ 2 ∧
    10 < (normalize ("abcdefghijklmnop".data)).length ∧
    (summarize false ("abcdefghijklmnop".data) 10).length = 10 + 3 :=
  ⟨by decide, by decide,
   c9_output_exceeds_budget.1 ("abcdefghijklmnop".data) 10 (by decide) (by decide)⟩

end GujaratiNews
